import Mathlib

/-!
Verification of the request dispatch and execution-isolation layer of a
distributed analytical database, shallowly embedded from the Rust sources:
`src/client/src/database.rs` (batched request correlator),
`src/servers/src/grpc/region_server.rs` (execution isolator / region RPC entry),
and `src/servers/tests/mod.rs` (generic single-result query handler).
-/

/-! ## Wire data model (client side, from `src/client/src/database.rs`) -/

/-- Byte string, `Vec<u8>` in the source. -/
abbrev Bytes := List Nat

/-- `api::v1::ExprHeader { version: u32 }`. -/
structure ExprHeader where
  version : Nat
deriving DecidableEq, Repr

/-- `api::v1::InsertExpr { table_name, values }`. -/
structure InsertExpr where
  table_name : String
  values : List Bytes
deriving DecidableEq, Repr

/-- `api::v1::SelectExpr`: protocol-specific expression, opaque to this layer
(the client wraps it and never inspects it). -/
structure SelectExpr where
  payload : Bytes
deriving DecidableEq, Repr

/-- The oneof `api::v1::object_expr::Expr`. -/
inductive ObjectExprBody where
  | Insert (i : InsertExpr)
  | Select (s : SelectExpr)
deriving DecidableEq, Repr

/-- `api::v1::ObjectExpr { header, expr }` (both fields optional on the wire). -/
structure ObjectExpr where
  header : Option ExprHeader
  expr : Option ObjectExprBody
deriving DecidableEq, Repr

/-- The result header `{ status_code, err_msg }` of an `ObjectResult`. -/
structure ResultHeader where
  code : Nat
  err_msg : String
deriving DecidableEq, Repr

/-- The wire-level select payload `{ raw_data: bytes }` inside a result. -/
structure WireSelectResult where
  raw_data : Bytes
deriving DecidableEq, Repr

/-- `api::v1::MutateResult`: mutation summary (affected counts); opaque to
the correlator, which returns it as-is. -/
structure MutateResult where
  success : Nat
  failure : Nat
deriving DecidableEq, Repr

/-- The oneof `api::v1::object_result::Result`: payload variant chosen by the
producer. -/
inductive ObjectResultBody where
  | Select (s : WireSelectResult)
  | Mutate (m : MutateResult)
deriving DecidableEq, Repr

/-- `api::v1::ObjectResult` (aliased `GrpcObjectResult` in the client source):
a result header plus an optional payload variant. -/
structure GrpcObjectResult where
  header : Option ResultHeader
  result : Option ObjectResultBody
deriving DecidableEq, Repr

/-- `api::v1::DatabaseRequest { name, exprs }`: the batch envelope. -/
structure DatabaseRequest where
  name : String
  exprs : List ObjectExpr
deriving DecidableEq, Repr

/-- The response envelope: `{ results: ordered sequence of ObjectResult }`. -/
structure DatabaseResponse where
  results : List GrpcObjectResult
deriving DecidableEq, Repr

/-- `api::v1::codec::SelectResult`: the typed tabular result decoded from a
select payload's raw bytes; its internals are opaque to this layer. -/
structure SelectResult where
  nrows : Nat
deriving DecidableEq, Repr

/-- The client's typed result enum `ObjectResult` at the bottom of
`database.rs`: either a decoded select result or a mutate summary. -/
inductive ObjectResult where
  | Select (s : SelectResult)
  | Mutate (m : MutateResult)
deriving DecidableEq, Repr

/-- The client error type (`client::error::Error`), restricted to the kinds
constructed in `database.rs`, plus a transport kind for failures of the
underlying `client.database` call. -/
inductive ClientError where
  | MissingHeader
  | MissingResult (name : String) (expected : Nat) (actual : Nat)
  | Datanode (code : Nat) (msg : String)
  | DecodeSelect
  | Transport (msg : String)
deriving DecidableEq, Repr

/-- `pub const PROTOCOL_VERSION: u32 = 1`. -/
def PROTOCOL_VERSION : Nat := 1

/-- Modelled from the spec: `common_error::status_code::StatusCode::is_success`
is not under `src/`; the spec states status code `0` means success and any
other value is a remote failure. -/
def StatusCode.is_success (code : Nat) : Bool := code == 0

/-! ## Batched request correlator (`Database` in `src/client/src/database.rs`)

The `Database` struct holds a name and a `Client`; the transport call
`self.client.database(req)` is modelled as a function argument
`client : DatabaseRequest → Except ClientError DatabaseResponse`, and the
payload codec `raw_data.try_into()` as `decode : Bytes → Option SelectResult`
(`none` models a decode failure). -/

/-- `Database::objects`: packs the expressions into one `DatabaseRequest`,
sends it, and enforces `len(results) == len(requests)`, failing with
`MissingResult { name: "object_results", expected, actual }` on mismatch. -/
def Database.objects (name : String)
    (client : DatabaseRequest → Except ClientError DatabaseResponse)
    (exprs : List ObjectExpr) : Except ClientError (List GrpcObjectResult) :=
  let expr_count := exprs.length
  let req : DatabaseRequest := { name := name, exprs := exprs }
  match client req with
  | .error e => .error e
  | .ok res =>
    let res := res.results
    if res.length = expr_count then
      .ok res
    else
      .error (ClientError.MissingResult "object_results" expr_count res.length)

/-- `Database::object`: submits a singleton batch and takes the sole result
via `pop().unwrap()` (`pop` removes the last element). The outer `Option` is
`none` exactly when the `unwrap` would panic, i.e. when `pop` finds an empty
vector. -/
def Database.object (name : String)
    (client : DatabaseRequest → Except ClientError DatabaseResponse)
    (expr : ObjectExpr) : Option (Except ClientError GrpcObjectResult) :=
  match Database.objects name client [expr] with
  | .error e => some (.error e)
  | .ok res =>
    match res.getLast? with
    | some r => some (.ok r)
    | none => none

/-- `Database::select`: wraps the select expression with a versioned header,
submits it as a single-operation batch, checks the result header's status
code, then branches on the payload variant. The outer `Option` is `none`
exactly when the underlying `object` call would panic. -/
def Database.select (name : String)
    (client : DatabaseRequest → Except ClientError DatabaseResponse)
    (decode : Bytes → Option SelectResult)
    (select_expr : SelectExpr) : Option (Except ClientError ObjectResult) :=
  let header : ExprHeader := { version := PROTOCOL_VERSION }
  let expr : ObjectExpr :=
    { header := some header, expr := some (.Select select_expr) }
  match Database.object name client expr with
  | none => none
  | some (.error e) => some (.error e)
  | some (.ok obj_result) =>
    match obj_result.header with
    | none => some (.error .MissingHeader)
    | some hdr =>
      if ! StatusCode.is_success hdr.code then
        some (.error (.Datanode hdr.code hdr.err_msg))
      else
        match obj_result.result with
        | none => some (.error (.MissingResult "select_result" 1 0))
        | some (.Select select) =>
          match decode select.raw_data with
          | some r => some (.ok (.Select r))
          | none => some (.error .DecodeSelect)
        | some (.Mutate mutate) => some (.ok (.Mutate mutate))

/-! ## Execution isolator (`src/servers/src/grpc/region_server.rs`) -/

/-- The server error type (`servers::error::Error`), restricted to the kinds
this layer constructs, plus `Other` standing for every remaining variant a
handler may report. -/
inductive ServersError where
  | InvalidQuery (reason : String)
  | JoinTask
  | NotSupported (feat : String)
  | Other (tag : Nat) (msg : String)
deriving DecidableEq, Repr

/-- Log level of an emitted log entry (`error!` vs `debug!`). -/
inductive LogLevel where
  | logError
  | logDebug
deriving DecidableEq, Repr

/-- `api::v1::region::RegionRequestHeader`: carries the trace identity. -/
structure RegionRequestHeader where
  trace_id : Nat
deriving DecidableEq, Repr

/-- `api::v1::region::RegionRequest { header, body }`; the body oneof
(`region_request::Body`) is opaque to the isolator, so it is a type
parameter. -/
structure RegionRequest (Body : Type) where
  header : Option RegionRequestHeader
  body : Option Body

/-- `RegionServerRequestHandler::handle`: validates header and body, then
spawns the handler invocation on a separate runtime and awaits the join
handle. The abstract pieces are parameters: `should_log_error` is the
severity classification `e.status_code().should_log_error()`, `handler` is
the `RegionServerHandler` capability, and `joinFault` tells whether the
isolated execution context itself failed to run the task to completion
(`handle.await` returning an error, converted by `context(JoinTaskSnafu)`).
Returns the result together with the log entries emitted by the `map_err`
closure. -/
def RegionServerRequestHandler.handle {Body R : Type}
    (should_log_error : ServersError → Bool)
    (handler : Body → Except ServersError R)
    (joinFault : Bool)
    (request : RegionRequest Body) : Except ServersError R × List LogLevel :=
  match request.header with
  | none =>
    (.error (.InvalidQuery "Expecting non-empty region request header."), [])
  | some _ =>
    match request.body with
    | none =>
      (.error (.InvalidQuery "Expecting non-empty region request body."), [])
    | some query =>
      if joinFault then
        (.error .JoinTask, [])
      else
        match handler query with
        | .ok response => (.ok response, [])
        | .error e =>
          (.error e,
            [if should_log_error e then LogLevel.logError else LogLevel.logDebug])

/-! ## Generic single-result query handler
(`<DummyInstance as GrpcQueryHandler>::do_query` in `src/servers/tests/mod.rs`) -/

/-- `query::parser::PromQuery` built from the wire range query. -/
structure PromQuery where
  query : String
  start : String
  stop : String
  step : String
deriving DecidableEq, Repr

/-- The wire `api::v1::PromRangeQuery` (fields `query, start, end, step`). -/
structure PromRangeQuery where
  query : String
  start : String
  stop : String
  step : String
deriving DecidableEq, Repr

/-- The oneof `api::v1::query_request::Query`. -/
inductive QueryBody where
  | Sql (sql : String)
  | LogicalPlan (bytes : Bytes)
  | PromRangeQuery (q : PromRangeQuery)
deriving DecidableEq, Repr

/-- `api::v1::QueryRequest { query: optional oneof }`. -/
structure QueryRequest where
  query : Option QueryBody
deriving DecidableEq, Repr

/-- The oneof `api::v1::greptime_request::Request`: every inbound gRPC
operation; mutation payloads are opaque to the dispatch under test. -/
inductive GreptimeRequest where
  | Inserts
  | Deletes
  | RowInserts
  | RowDeletes
  | Query (q : QueryRequest)
  | Ddl
deriving DecidableEq, Repr

/-- `<DummyInstance as GrpcQueryHandler>::do_query`: demultiplexes the request
and enforces exactly one result per call for query paths. The underlying
`SqlQueryHandler::do_query` and `do_promql_query` capabilities are the
parameters `sql_handler` and `promql_handler` (each yielding a sequence of
results, one per statement). The outer `Option` is `none` exactly on the
`unimplemented!`/`unwrap` panics of the test instance. -/
def DummyInstance.grpc_do_query {Output : Type}
    (sql_handler : String → List (Except ServersError Output))
    (promql_handler : PromQuery → List (Except ServersError Output))
    (request : GreptimeRequest) : Option (Except ServersError Output) :=
  match request with
  | .Inserts | .Deletes | .RowInserts | .RowDeletes => none
  | .Ddl => none
  | .Query query_request =>
    match query_request.query with
    | none => none
    | some (.Sql sql) =>
      match sql_handler sql with
      | [r] => some r
      | _ =>
        some (.error (.NotSupported
          "execute multiple statements in SQL query string through GRPC interface"))
    | some (.LogicalPlan _) => none
    | some (.PromRangeQuery promql) =>
      match promql_handler
          { query := promql.query, start := promql.start,
            stop := promql.stop, step := promql.step } with
      | [r] => some r
      | _ =>
        some (.error (.NotSupported
          "execute multiple statements in PromQL query string through GRPC interface"))

/-! ## Claims -/

/-- C1: For every batched submission of N logical operations through the
correlator's `objects` call, if the transport returns a result sequence of
length M with M ≠ N the call fails with `MissingResult` carrying name
`"object_results"`, expected N and actual M; if M = N the call returns
exactly those M results in the order received, never truncated or padded. -/
theorem objects_count_invariant (name : String)
    (client : DatabaseRequest → Except ClientError DatabaseResponse)
    (exprs : List ObjectExpr) (res : List GrpcObjectResult)
    (h : client { name := name, exprs := exprs } = .ok { results := res }) :
    Database.objects name client exprs =
      if res.length = exprs.length then .ok res
      else .error (ClientError.MissingResult "object_results"
        exprs.length res.length) := by
  unfold Database.objects
  simp only [h]

/-- Witness for C1: submitting one expression and receiving zero results
fails with `MissingResult { expected := 1, actual := 0 }`. -/
theorem objects_count_invariant_witness :
    Database.objects "db" (fun _ => .ok { results := [] })
      [{ header := none, expr := none }] =
      .error (ClientError.MissingResult "object_results" 1 0) := by
  have h := objects_count_invariant "db" (fun _ => .ok { results := [] })
    [{ header := none, expr := none }] [] rfl
  simpa using h

/-- C9: The convenience single-operation call `object` submits a singleton
batch and takes the sole result; the count invariant runs first, so a
transport response with a count other than 1 surfaces `MissingResult`, and
the subsequent `pop().unwrap()` can never panic (the result is never
`none`). -/
theorem object_never_panics (name : String)
    (client : DatabaseRequest → Except ClientError DatabaseResponse)
    (expr : ObjectExpr) :
    Database.object name client expr ≠ none ∧
    (∀ res : List GrpcObjectResult,
      client { name := name, exprs := [expr] } = .ok { results := res } →
      res.length ≠ 1 →
      Database.object name client expr =
        some (.error (ClientError.MissingResult "object_results" 1
          res.length))) := by
  constructor
  · unfold Database.object Database.objects
    cases hc : client { name := name, exprs := [expr] } with
    | error e => simp [hc]
    | ok r =>
      by_cases hl : r.results.length = 1
      · obtain ⟨a, ha⟩ := List.length_eq_one.mp hl
        simp [hc, ha]
      · simp [hc, hl]
  · intro res hres hlen
    unfold Database.object Database.objects
    simp [hres, hlen]

/-- Witness for C9: with a transport returning two results for the singleton
batch, `object` surfaces the `MissingResult` invariant violation and does not
panic. -/
theorem object_never_panics_witness :
    Database.object "db"
      (fun _ => .ok { results :=
        [{ header := none, result := none }, { header := none, result := none }] })
      { header := none, expr := none } =
      some (.error (ClientError.MissingResult "object_results" 1 2)) := by
  have h := (object_never_panics "db"
    (fun _ => .ok { results :=
      [{ header := none, result := none }, { header := none, result := none }] })
    { header := none, expr := none }).2
    [{ header := none, result := none }, { header := none, result := none }]
    rfl (by decide)
  simpa using h

/-- C3: For every `select` call whose response carries a result header with a
non-success status code, the call fails with the remote-failure error
`Datanode` carrying exactly that status code and error message; the payload
bytes are never decoded (the result is the same for every `decode` function
and every payload). -/
theorem select_remote_failure (name : String) (select_expr : SelectExpr)
    (decode : Bytes → Option SelectResult) (code : Nat) (msg : String)
    (payload : Option ObjectResultBody)
    (client : DatabaseRequest → Except ClientError DatabaseResponse)
    (hresp : client
        { name := name,
          exprs := [{ header := some { version := PROTOCOL_VERSION },
                      expr := some (.Select select_expr) }] } =
      .ok { results := [{ header := some { code := code, err_msg := msg },
                          result := payload }] })
    (hcode : StatusCode.is_success code = false) :
    Database.select name client decode select_expr =
      some (.error (ClientError.Datanode code msg)) := by
  unfold Database.select Database.object Database.objects
  simp [hresp, hcode]

/-- Witness for C3: status code 1 with a select payload yields the remote
failure, untouched by a decode function that would have succeeded. -/
theorem select_remote_failure_witness :
    Database.select "db"
      (fun _ => .ok { results :=
        [{ header := some { code := 1, err_msg := "boom" },
           result := some (.Select { raw_data := [0] }) }] })
      (fun _ => some { nrows := 0 }) { payload := [] } =
      some (.error (ClientError.Datanode 1 "boom")) :=
  select_remote_failure "db" { payload := [] } (fun _ => some { nrows := 0 })
    1 "boom" (some (.Select { raw_data := [0] })) _ rfl (by decide)

/-- C4: For every `select` call whose response has a success status, the
client branches on the payload variant tag: a `Select` payload is decoded
from raw bytes into a typed result, a decode failure yields the decode
error, and a `Mutate` payload is returned as-is even though the request was
read-shaped. -/
theorem select_success_branches (name : String) (select_expr : SelectExpr)
    (decode : Bytes → Option SelectResult) (code : Nat) (msg : String)
    (raw : Bytes) (m : MutateResult)
    (hcode : StatusCode.is_success code = true) :
    (Database.select name
        (fun _ => .ok { results :=
          [{ header := some { code := code, err_msg := msg },
             result := some (.Select { raw_data := raw }) }] })
        decode select_expr =
      some (match decode raw with
            | some r => .ok (ObjectResult.Select r)
            | none => .error ClientError.DecodeSelect)) ∧
    (Database.select name
        (fun _ => .ok { results :=
          [{ header := some { code := code, err_msg := msg },
             result := some (.Mutate m) }] })
        decode select_expr =
      some (.ok (ObjectResult.Mutate m))) := by
  constructor
  · unfold Database.select Database.object Database.objects
    cases hd : decode raw <;> simp [hcode, hd]
  · unfold Database.select Database.object Database.objects
    simp [hcode]

/-- Witness for C4: with the success code 0, a decodable select payload
yields the typed select result, and a mutate payload is returned as-is. -/
theorem select_success_branches_witness :
    (Database.select "db"
      (fun _ => .ok { results :=
        [{ header := some { code := 0, err_msg := "" },
           result := some (.Select { raw_data := [7] }) }] })
      (fun raw => some { nrows := raw.length }) { payload := [] } =
      some (.ok (ObjectResult.Select { nrows := 1 }))) ∧
    (Database.select "db"
      (fun _ => .ok { results :=
        [{ header := some { code := 0, err_msg := "" },
           result := some (.Mutate { success := 2, failure := 0 }) }] })
      (fun raw => some { nrows := raw.length }) { payload := [] } =
      some (.ok (ObjectResult.Mutate { success := 2, failure := 0 }))) := by
  have h := select_success_branches "db" { payload := [] }
    (fun raw => some { nrows := raw.length }) 0 "" [7]
    { success := 2, failure := 0 } (by decide)
  exact ⟨h.1, h.2⟩

/-- C10: For every `select` call whose response has a success status code but
whose result payload variant is absent, the call fails with `MissingResult`
carrying name `"select_result"`, expected 1 and actual 0, rather than
panicking or returning an empty result. -/
theorem select_missing_payload (name : String) (select_expr : SelectExpr)
    (decode : Bytes → Option SelectResult) (code : Nat) (msg : String)
    (hcode : StatusCode.is_success code = true) :
    Database.select name
      (fun _ => .ok { results :=
        [{ header := some { code := code, err_msg := msg },
           result := none }] })
      decode select_expr =
      some (.error (ClientError.MissingResult "select_result" 1 0)) := by
  unfold Database.select Database.object Database.objects
  simp [hcode]

/-- Witness for C10: success code 0 with an absent payload variant yields
`MissingResult { name := "select_result", expected := 1, actual := 0 }`. -/
theorem select_missing_payload_witness :
    Database.select "db"
      (fun _ => .ok { results :=
        [{ header := some { code := 0, err_msg := "" }, result := none }] })
      (fun _ => none) { payload := [] } =
      some (.error (ClientError.MissingResult "select_result" 1 0)) :=
  select_missing_payload "db" { payload := [] } (fun _ => none) 0 "" (by decide)

/-- C5: For every inbound `RegionRequest`, a missing envelope header fails
with `InvalidQuery` mentioning the missing header and a missing body fails
with `InvalidQuery` mentioning the missing body; in either case the result is
the same for every handler, so the request handler is never invoked and no
partial work is executed (no log entries are emitted either). -/
theorem region_validation_rejects {Body R : Type}
    (should_log_error : ServersError → Bool)
    (handler : Body → Except ServersError R) (joinFault : Bool) :
    (∀ body : Option Body,
      RegionServerRequestHandler.handle should_log_error handler joinFault
        { header := none, body := body } =
        (.error (.InvalidQuery "Expecting non-empty region request header."),
          [])) ∧
    (∀ hdr : RegionRequestHeader,
      RegionServerRequestHandler.handle should_log_error handler joinFault
        { header := some hdr, body := none } =
        (.error (.InvalidQuery "Expecting non-empty region request body."),
          [])) := by
  exact ⟨fun _ => rfl, fun _ => rfl⟩

/-- C2: For every handler-reported error in the execution isolator, the error
value returned to the caller is identical to the error the handler produced;
the error's declared severity (`should_log_error`) determines only whether an
error-level or debug-level log entry is emitted, never the returned value. -/
theorem handler_error_returned_verbatim {Body R : Type}
    (should_log_error : ServersError → Bool)
    (handler : Body → Except ServersError R)
    (hdr : RegionRequestHeader) (query : Body) (e : ServersError)
    (h : handler query = .error e) :
    RegionServerRequestHandler.handle should_log_error handler false
      { header := some hdr, body := some query } =
      (.error e,
        [if should_log_error e then LogLevel.logError
         else LogLevel.logDebug]) := by
  unfold RegionServerRequestHandler.handle
  simp [h]

/-- Witness for C2: a handler reporting `Other 7 "boom"` under an
always-loggable severity classification returns exactly that error with one
error-level log entry. -/
theorem handler_error_returned_verbatim_witness :
    @RegionServerRequestHandler.handle Nat Nat
      (fun _ => true) (fun _ => .error (.Other 7 "boom")) false
      { header := some { trace_id := 0 }, body := some 3 } =
      (.error (.Other 7 "boom"), [LogLevel.logError]) := by
  have h := @handler_error_returned_verbatim Nat Nat
    (fun _ => true) (fun _ => .error (.Other 7 "boom"))
    { trace_id := 0 } 3 (.Other 7 "boom") rfl
  simpa using h

/-- C7: When the isolated execution context itself fails to run the
dispatched unit of work to completion, the isolator returns the distinct
`JoinTask` error; when the isolated task completes, the handler's own result
(success or error) is what the isolator returns. -/
theorem join_fault_distinct {Body R : Type}
    (should_log_error : ServersError → Bool)
    (handler : Body → Except ServersError R)
    (hdr : RegionRequestHeader) (query : Body) :
    RegionServerRequestHandler.handle should_log_error handler true
      { header := some hdr, body := some query } =
      (.error .JoinTask, []) ∧
    (RegionServerRequestHandler.handle should_log_error handler false
      { header := some hdr, body := some query }).1 = handler query := by
  refine ⟨rfl, ?_⟩
  unfold RegionServerRequestHandler.handle
  cases h : handler query <;> simp [h]

/-- C6: For every SQL query submitted through the generic single-result query
handler entry point, if the underlying SQL text handler yields a result
sequence of length ≠ 1 the call fails with `NotSupported` (multi-statement
SQL through this entry point) and no result is returned; if the sequence has
length exactly 1, its sole element is returned as the one output (or the one
error) of the call. -/
theorem grpc_sql_single_result {Output : Type}
    (sql_handler : String → List (Except ServersError Output))
    (promql_handler : PromQuery → List (Except ServersError Output))
    (sql : String) :
    ((sql_handler sql).length ≠ 1 →
      DummyInstance.grpc_do_query sql_handler promql_handler
        (.Query { query := some (.Sql sql) }) =
        some (.error (.NotSupported
          "execute multiple statements in SQL query string through GRPC interface"))) ∧
    (∀ r, sql_handler sql = [r] →
      DummyInstance.grpc_do_query sql_handler promql_handler
        (.Query { query := some (.Sql sql) }) = some r) := by
  constructor
  · intro hne
    unfold DummyInstance.grpc_do_query
    cases h : sql_handler sql with
    | nil => simp [h]
    | cons a t =>
      cases t with
      | nil => rw [h] at hne; simp at hne
      | cons b t2 => simp [h]
  · intro r hr
    unfold DummyInstance.grpc_do_query
    simp [hr]

/-- Witness for C6: a two-statement result sequence fails with
`NotSupported`; a one-statement sequence returns its sole output. -/
theorem grpc_sql_single_result_witness :
    (DummyInstance.grpc_do_query
      (fun _ => [Except.ok (1 : Nat), Except.ok 2]) (fun _ => [])
      (.Query { query := some (.Sql "select 1; select 2") }) =
      some (.error (.NotSupported
        "execute multiple statements in SQL query string through GRPC interface"))) ∧
    (DummyInstance.grpc_do_query
      (fun _ => [Except.ok (5 : Nat)]) (fun _ => [])
      (.Query { query := some (.Sql "select 1") }) = some (.ok 5)) := by
  constructor
  · exact (grpc_sql_single_result
      (fun _ => [Except.ok (1 : Nat), Except.ok 2]) (fun _ => [])
      "select 1; select 2").1 (by decide)
  · exact (grpc_sql_single_result
      (fun _ => [Except.ok (5 : Nat)]) (fun _ => [])
      "select 1").2 (Except.ok 5) rfl
